import Mathlib

/-!
Shallow embedding of the bounding-box restaurant-finder tool
(`app/tools/boundingBoxes.ts`): the data model, the quadrant subdivision,
the per-quadrant places search, the bounded-retry lookup loop, and the
tool entry point, together with theorems about them.

Numeric bounds are modelled as rationals; nullable database columns are
modelled as `Option` fields; the fallible tool body is modelled as an
`Except String` computation.
-/

/-- Row of the `Bounding Boxes` table
(`Database.public.Tables.Bounding Boxes.Row`): a state/county label and
four nullable numeric bounds. -/
structure BoundingBoxRow where
  STATE_NAME : Option String
  COUNTY_NAME : Option String
  y_min : Option ℚ
  y_max : Option ℚ
  x_min : Option ℚ
  x_max : Option ℚ
deriving DecidableEq

/-- Quadrant produced by the subdivision step: the county label together
with four (non-null) bounds. -/
structure Quadrant where
  COUNTY_NAME : Option String
  y_min : ℚ
  y_max : ℚ
  x_min : ℚ
  x_max : ℚ
deriving DecidableEq

/-- Body of the callback passed to `boundingBoxes.flatMap`: a box with any
null bound contributes `[]`; otherwise the four quadrants are emitted, in
the source order (south-west, south-east, north-west, north-east), using
the midpoints `y_mid = (y_min + y_max) / 2` and `x_mid = (x_min + x_max) / 2`. -/
def divideBox (box : BoundingBoxRow) : List Quadrant :=
  match box.y_min, box.y_max, box.x_min, box.x_max with
  | some y_min, some y_max, some x_min, some x_max =>
    let y_mid := (y_min + y_max) / 2
    let x_mid := (x_min + x_max) / 2
    [ { COUNTY_NAME := box.COUNTY_NAME, y_min := y_min, y_max := y_mid, x_min := x_min, x_max := x_mid },
      { COUNTY_NAME := box.COUNTY_NAME, y_min := y_min, y_max := y_mid, x_min := x_mid, x_max := x_max },
      { COUNTY_NAME := box.COUNTY_NAME, y_min := y_mid, y_max := y_max, x_min := x_min, x_max := x_mid },
      { COUNTY_NAME := box.COUNTY_NAME, y_min := y_mid, y_max := y_max, x_min := x_mid, x_max := x_max } ]
  | _, _, _, _ => []

/-- The `dividedBoundingBoxes` value: `boundingBoxes.flatMap(box => ...)`. -/
def dividedBoundingBoxes (boxes : List BoundingBoxRow) : List Quadrant :=
  boxes.flatMap divideBox

/-- Check that all four bounds of a row are present (the source guard at
the top of the `flatMap` callback, negated). -/
def allBoundsPresent (box : BoundingBoxRow) : Bool :=
  box.y_min.isSome && box.y_max.isSome && box.x_min.isSome && box.x_max.isSome

/-- Closed axis-aligned rectangle with the given bounds, as a point set. -/
def rectSet (ymin ymax xmin xmax : ℚ) : Set (ℚ × ℚ) :=
  {p | ymin ≤ p.1 ∧ p.1 ≤ ymax ∧ xmin ≤ p.2 ∧ p.2 ≤ xmax}

/-- Extent of a quadrant, as a point set. -/
def Quadrant.extent (q : Quadrant) : Set (ℚ × ℚ) :=
  rectSet q.y_min q.y_max q.x_min q.x_max

/-- Union of the horizontal and vertical midlines through the midpoint:
two distinct quadrants may meet only inside this zero-area set. -/
def midlines (ymid xmid : ℚ) : Set (ℚ × ℚ) :=
  {p | p.1 = ymid ∨ p.2 = xmid}

/-- Place record returned by the places provider; only the identifier is used. -/
structure PlaceResult where
  place_id : String
deriving DecidableEq

/-- Status reported by the places service callback: OK or some non-OK code. -/
inductive PlacesServiceStatus where
  | OK : PlacesServiceStatus
  | other (code : String) : PlacesServiceStatus
deriving DecidableEq

/-- Arguments passed to the nearbySearch callback. -/
structure PlacesResponse where
  status : PlacesServiceStatus
  results : Option (List PlaceResult)
deriving DecidableEq

structure LatLng where
  lat : ℚ
  lng : ℚ
deriving DecidableEq

structure LatLngBounds where
  southwest : LatLng
  northeast : LatLng
deriving DecidableEq

structure NearbySearchRequest where
  bounds : LatLngBounds
  type : String
deriving DecidableEq

/-- Request built for one quadrant: southwest and northeast corners from the
quadrant bounds, category fixed to restaurant. -/
def mkSearchRequest (box : Quadrant) : NearbySearchRequest :=
  { bounds := { southwest := { lat := box.y_min, lng := box.x_min },
                northeast := { lat := box.y_max, lng := box.x_max } },
    type := "restaurant" }

/-- Body of the nearbySearch callback: on OK status with a result list the
place ids are collected in provider order; any other outcome resolves to `[]`. -/
def nearbySearchPlaceIds (resp : PlacesResponse) : List String :=
  match resp.status, resp.results with
  | PlacesServiceStatus.OK, some results => results.map PlaceResult.place_id
  | _, _ => []

/-- The mapped searches, issued from call index i onwards: one response per
quadrant, obtained from the external provider behaviour. -/
def searchResultsFrom (provider : Nat → NearbySearchRequest → PlacesResponse) (i : Nat) :
    List Quadrant → List (List String)
  | [] => []
  | box :: rest =>
      nearbySearchPlaceIds (provider i (mkSearchRequest box)) :: searchResultsFrom provider (i + 1) rest

/-- The `searchResults` value: the per-quadrant place-id lists, in quadrant
emission order. -/
def searchResults (provider : Nat → NearbySearchRequest → PlacesResponse)
    (boxes : List Quadrant) : List (List String) :=
  searchResultsFrom provider 0 boxes

theorem searchResultsFrom_length (provider : Nat → NearbySearchRequest → PlacesResponse)
    (i : Nat) (boxes : List Quadrant) :
    (searchResultsFrom provider i boxes).length = boxes.length := by
  induction boxes generalizing i with
  | nil => rfl
  | cons box rest ih => simp [searchResultsFrom, ih]

theorem searchResultsFrom_getElem (provider : Nat → NearbySearchRequest → PlacesResponse)
    (j : Nat) (boxes : List Quadrant) (i : Nat) :
    (searchResultsFrom provider j boxes)[i]? =
      (boxes[i]?).map fun box => nearbySearchPlaceIds (provider (j + i) (mkSearchRequest box)) := by
  induction boxes generalizing j i with
  | nil => simp [searchResultsFrom]
  | cons box rest ih =>
    cases i with
    | zero => simp [searchResultsFrom]
    | succ k =>
      have h : j + (k + 1) = (j + 1) + k := by omega
      simp only [searchResultsFrom, List.getElem?_cons_succ, ih, h]

/-- Outcome of one Supabase query attempt: either an error object or a data
list (the awaited pair destructured in the source). -/
inductive QueryResult where
  | err (e : String) : QueryResult
  | rows (data : List BoundingBoxRow) : QueryResult
deriving DecidableEq

/-- Predicate on one attempt outcome: the attempt is a failure when the query
errors or when it returns zero rows. -/
def attemptFailed : QueryResult → Bool
  | QueryResult.err _ => true
  | QueryResult.rows data => data.isEmpty

/-- One pass of the retry loop, modelled with fuel equal to the number of
loop iterations still allowed (so fuel = maxRetries - attempt, and fuel 0 is
the loop condition attempt < maxRetries failing). The store gives the outcome
of the query on each (1-based) attempt. Inside an iteration: the attempt
counter is incremented first; a query error is thrown and caught by the
surrounding catch; data is assigned to the boundingBoxes variable before the
emptiness check; an empty result throws the no-boxes error, also caught; the
catch rethrows when the incremented attempt has reached maxRetries, and
otherwise continues the loop; a non-empty result breaks out of the loop.
The returned pair is the loop outcome together with the final value of the
attempt counter. -/
def lookupLoop (store : Nat → QueryResult) (state : String) (maxRetries : Nat) :
    Nat → Nat → Option (List BoundingBoxRow) →
      Except String (Option (List BoundingBoxRow)) × Nat
  | 0, attempt, boundingBoxes => (Except.ok boundingBoxes, attempt)
  | fuel + 1, attempt, boundingBoxes =>
    let a := attempt + 1
    match store a with
    | QueryResult.err e =>
        if maxRetries ≤ a then (Except.error e, a)
        else lookupLoop store state maxRetries fuel a boundingBoxes
    | QueryResult.rows data =>
        if data.isEmpty then
          if maxRetries ≤ a then
            (Except.error ("No bounding boxes found for state: " ++ state), a)
          else lookupLoop store state maxRetries fuel a (some data)
        else (Except.ok (some data), a)

/-- The retry loop as run by the tool: maxRetries = 3, starting at attempt 0
with the boundingBoxes variable null. -/
def runLookupLoop (store : Nat → QueryResult) (state : String) :
    Except String (Option (List BoundingBoxRow)) × Nat :=
  lookupLoop store state 3 3 0 none

/-- The lookup part of the tool body: the retry loop followed by the
defensive null check on the boundingBoxes variable. -/
def boundingBoxesLookup (store : Nat → QueryResult) (state : String) :
    Except String (List BoundingBoxRow) × Nat :=
  match runLookupLoop store state with
  | (Except.error e, a) => (Except.error e, a)
  | (Except.ok none, a) => (Except.error "Bounding boxes data is null", a)
  | (Except.ok (some boxes), a) => (Except.ok boxes, a)

/-- The whole tool body: lookup with retries, subdivision, per-quadrant
search, flatten. -/
def boundingBoxesTool (store : Nat → QueryResult)
    (provider : Nat → NearbySearchRequest → PlacesResponse) (state : String) :
    Except String (List String) :=
  match (boundingBoxesLookup store state).1 with
  | Except.error e => Except.error e
  | Except.ok boxes =>
      Except.ok ((searchResults provider (dividedBoundingBoxes boxes)).flatten)

/-- Check whether the loop outcome is a normal exit with the boundingBoxes
variable still null (the condition of the post-loop defensive check). -/
def lookupReturnedNull : Except String (Option (List BoundingBoxRow)) → Bool
  | Except.ok none => true
  | _ => false

theorem runLookupLoop_ok1 (store : Nat → QueryResult) (state : String) (d : List BoundingBoxRow)
    (h : store 1 = QueryResult.rows d) (hne : d.isEmpty = false) :
    runLookupLoop store state = (Except.ok (some d), 1) := by
  simp [runLookupLoop, lookupLoop, h, hne]

theorem runLookupLoop_ok2 (store : Nat → QueryResult) (state : String) (d : List BoundingBoxRow)
    (h1 : attemptFailed (store 1) = true)
    (h : store 2 = QueryResult.rows d) (hne : d.isEmpty = false) :
    runLookupLoop store state = (Except.ok (some d), 2) := by
  rcases he : store 1 with e | d1
  · simp [runLookupLoop, lookupLoop, he, h, hne]
  · rw [he] at h1
    simp only [attemptFailed] at h1
    simp [runLookupLoop, lookupLoop, he, h, hne, h1]

theorem runLookupLoop_ok3 (store : Nat → QueryResult) (state : String) (d : List BoundingBoxRow)
    (h1 : attemptFailed (store 1) = true) (h2 : attemptFailed (store 2) = true)
    (h : store 3 = QueryResult.rows d) (hne : d.isEmpty = false) :
    runLookupLoop store state = (Except.ok (some d), 3) := by
  rcases he1 : store 1 with e1 | d1 <;> rcases he2 : store 2 with e2 | d2 <;>
    rw [he1] at h1 <;> rw [he2] at h2 <;> simp only [attemptFailed] at h1 h2 <;>
    simp [runLookupLoop, lookupLoop, he1, he2, h, hne, h1, h2]

theorem runLookupLoop_err3 (store : Nat → QueryResult) (state : String) (e : String)
    (h1 : attemptFailed (store 1) = true) (h2 : attemptFailed (store 2) = true)
    (h : store 3 = QueryResult.err e) :
    runLookupLoop store state = (Except.error e, 3) := by
  rcases he1 : store 1 with e1 | d1 <;> rcases he2 : store 2 with e2 | d2 <;>
    rw [he1] at h1 <;> rw [he2] at h2 <;> simp only [attemptFailed] at h1 h2 <;>
    simp [runLookupLoop, lookupLoop, he1, he2, h, h1, h2]

theorem runLookupLoop_empty3 (store : Nat → QueryResult) (state : String)
    (h1 : attemptFailed (store 1) = true) (h2 : attemptFailed (store 2) = true)
    (h : store 3 = QueryResult.rows []) :
    runLookupLoop store state =
      (Except.error ("No bounding boxes found for state: " ++ state), 3) := by
  rcases he1 : store 1 with e1 | d1 <;> rcases he2 : store 2 with e2 | d2 <;>
    rw [he1] at h1 <;> rw [he2] at h2 <;> simp only [attemptFailed] at h1 h2 <;>
    simp [runLookupLoop, lookupLoop, he1, he2, h, h1, h2]

theorem runLookupLoop_outcomes (store : Nat → QueryResult) (state : String) :
    (∃ d a, d.isEmpty = false ∧ 1 ≤ a ∧ a ≤ 3 ∧
      runLookupLoop store state = (Except.ok (some d), a))
    ∨ (∃ e, runLookupLoop store state = (Except.error e, 3)) := by
  rcases he1 : store 1 with e1 | d1
  · rcases he2 : store 2 with e2 | d2
    · rcases he3 : store 3 with e3 | d3
      · exact Or.inr ⟨e3, runLookupLoop_err3 store state e3 (by simp [attemptFailed, he1]) (by simp [attemptFailed, he2]) he3⟩
      · rcases hd3 : d3.isEmpty with _ | _
        · exact Or.inl ⟨d3, 3, hd3, by omega, by omega,
            runLookupLoop_ok3 store state d3 (by simp [attemptFailed, he1]) (by simp [attemptFailed, he2]) he3 hd3⟩
        · have : d3 = [] := List.isEmpty_iff.mp hd3
          subst this
          exact Or.inr ⟨_, runLookupLoop_empty3 store state (by simp [attemptFailed, he1]) (by simp [attemptFailed, he2]) he3⟩
    · rcases hd2 : d2.isEmpty with _ | _
      · exact Or.inl ⟨d2, 2, hd2, by omega, by omega,
          runLookupLoop_ok2 store state d2 (by simp [attemptFailed, he1]) he2 hd2⟩
      · rcases he3 : store 3 with e3 | d3
        · exact Or.inr ⟨e3, runLookupLoop_err3 store state e3 (by simp [attemptFailed, he1]) (by simp [attemptFailed, he2, hd2]) he3⟩
        · rcases hd3 : d3.isEmpty with _ | _
          · exact Or.inl ⟨d3, 3, hd3, by omega, by omega,
              runLookupLoop_ok3 store state d3 (by simp [attemptFailed, he1]) (by simp [attemptFailed, he2, hd2]) he3 hd3⟩
          · have : d3 = [] := List.isEmpty_iff.mp hd3
            subst this
            exact Or.inr ⟨_, runLookupLoop_empty3 store state (by simp [attemptFailed, he1]) (by simp [attemptFailed, he2, hd2]) he3⟩
  · rcases hd1 : d1.isEmpty with _ | _
    · exact Or.inl ⟨d1, 1, hd1, by omega, by omega, runLookupLoop_ok1 store state d1 he1 hd1⟩
    · rcases he2 : store 2 with e2 | d2
      · rcases he3 : store 3 with e3 | d3
        · exact Or.inr ⟨e3, runLookupLoop_err3 store state e3 (by simp [attemptFailed, he1, hd1]) (by simp [attemptFailed, he2]) he3⟩
        · rcases hd3 : d3.isEmpty with _ | _
          · exact Or.inl ⟨d3, 3, hd3, by omega, by omega,
              runLookupLoop_ok3 store state d3 (by simp [attemptFailed, he1, hd1]) (by simp [attemptFailed, he2]) he3 hd3⟩
          · have : d3 = [] := List.isEmpty_iff.mp hd3
            subst this
            exact Or.inr ⟨_, runLookupLoop_empty3 store state (by simp [attemptFailed, he1, hd1]) (by simp [attemptFailed, he2]) he3⟩
      · rcases hd2 : d2.isEmpty with _ | _
        · exact Or.inl ⟨d2, 2, hd2, by omega, by omega,
            runLookupLoop_ok2 store state d2 (by simp [attemptFailed, he1, hd1]) he2 hd2⟩
        · rcases he3 : store 3 with e3 | d3
          · exact Or.inr ⟨e3, runLookupLoop_err3 store state e3 (by simp [attemptFailed, he1, hd1]) (by simp [attemptFailed, he2, hd2]) he3⟩
          · rcases hd3 : d3.isEmpty with _ | _
            · exact Or.inl ⟨d3, 3, hd3, by omega, by omega,
                runLookupLoop_ok3 store state d3 (by simp [attemptFailed, he1, hd1]) (by simp [attemptFailed, he2, hd2]) he3 hd3⟩
            · have : d3 = [] := List.isEmpty_iff.mp hd3
              subst this
              exact Or.inr ⟨_, runLookupLoop_empty3 store state (by simp [attemptFailed, he1, hd1]) (by simp [attemptFailed, he2, hd2]) he3⟩

theorem boundingBoxesLookup_of_loop_ok (store : Nat → QueryResult) (state : String)
    (d : List BoundingBoxRow) (a : Nat)
    (h : runLookupLoop store state = (Except.ok (some d), a)) :
    boundingBoxesLookup store state = (Except.ok d, a) := by
  simp [boundingBoxesLookup, h]

theorem boundingBoxesLookup_of_loop_error (store : Nat → QueryResult) (state : String)
    (e : String) (a : Nat)
    (h : runLookupLoop store state = (Except.error e, a)) :
    boundingBoxesLookup store state = (Except.error e, a) := by
  simp [boundingBoxesLookup, h]

theorem boundingBoxesTool_of_lookup_ok (store : Nat → QueryResult)
    (provider : Nat → NearbySearchRequest → PlacesResponse) (state : String)
    (d : List BoundingBoxRow) (a : Nat)
    (h : boundingBoxesLookup store state = (Except.ok d, a)) :
    boundingBoxesTool store provider state =
      Except.ok ((searchResults provider (dividedBoundingBoxes d)).flatten) := by
  simp [boundingBoxesTool, h]

theorem boundingBoxesTool_of_lookup_error (store : Nat → QueryResult)
    (provider : Nat → NearbySearchRequest → PlacesResponse) (state : String)
    (e : String) (a : Nat)
    (h : boundingBoxesLookup store state = (Except.error e, a)) :
    boundingBoxesTool store provider state = Except.error e := by
  simp [boundingBoxesTool, h]

theorem runLookupLoop_ok_of_not_all_failed (store : Nat → QueryResult) (state : String)
    (h : ¬(attemptFailed (store 1) = true ∧ attemptFailed (store 2) = true ∧
          attemptFailed (store 3) = true)) :
    ∃ d a, d.isEmpty = false ∧ runLookupLoop store state = (Except.ok (some d), a) := by
  by_cases h1 : attemptFailed (store 1) = true
  · by_cases h2 : attemptFailed (store 2) = true
    · by_cases h3 : attemptFailed (store 3) = true
      · exact absurd ⟨h1, h2, h3⟩ h
      · rcases he3 : store 3 with e3 | d3
        · rw [he3] at h3; simp [attemptFailed] at h3
        · rw [he3] at h3
          simp only [attemptFailed, Bool.not_eq_true] at h3
          exact ⟨d3, 3, h3, runLookupLoop_ok3 store state d3 h1 h2 he3 h3⟩
    · rcases he2 : store 2 with e2 | d2
      · rw [he2] at h2; simp [attemptFailed] at h2
      · rw [he2] at h2
        simp only [attemptFailed, Bool.not_eq_true] at h2
        exact ⟨d2, 2, h2, runLookupLoop_ok2 store state d2 h1 he2 h2⟩
  · rcases he1 : store 1 with e1 | d1
    · rw [he1] at h1; simp [attemptFailed] at h1
    · rw [he1] at h1
      simp only [attemptFailed, Bool.not_eq_true] at h1
      exact ⟨d1, 1, h1, runLookupLoop_ok1 store state d1 he1 h1⟩

theorem runLookupLoop_error_of_all_failed (store : Nat → QueryResult) (state : String)
    (h1 : attemptFailed (store 1) = true) (h2 : attemptFailed (store 2) = true)
    (h3 : attemptFailed (store 3) = true) :
    ∃ e, runLookupLoop store state = (Except.error e, 3) := by
  rcases he3 : store 3 with e3 | d3
  · exact ⟨e3, runLookupLoop_err3 store state e3 h1 h2 he3⟩
  · rw [he3] at h3
    simp only [attemptFailed] at h3
    have : d3 = [] := List.isEmpty_iff.mp h3
    subst this
    exact ⟨_, runLookupLoop_empty3 store state h1 h2 he3⟩

/-- Lowercase an ASCII letter; other characters are unchanged (the folding
used by SQL lower/ILIKE on the ASCII range). -/
def asciiLowerChar (c : Char) : Char :=
  if 65 ≤ c.toNat ∧ c.toNat ≤ 90 then Char.ofNat (c.toNat + 32) else c

/-- Uppercase an ASCII letter; other characters are unchanged. -/
def asciiUpperChar (c : Char) : Char :=
  if 97 ≤ c.toNat ∧ c.toNat ≤ 122 then Char.ofNat (c.toNat - 32) else c

theorem toNat_charOfNat_ascii (n : Nat) (h : n < 128) : (Char.ofNat n).toNat = n := by
  interval_cases n <;> rfl

theorem asciiLower_upperChar (c : Char) :
    asciiLowerChar (asciiUpperChar c) = asciiLowerChar c := by
  unfold asciiUpperChar
  split
  · next h =>
    obtain ⟨h1, h2⟩ := h
    have ht : (Char.ofNat (c.toNat - 32)).toNat = c.toNat - 32 :=
      toNat_charOfNat_ascii _ (by omega)
    unfold asciiLowerChar
    rw [ht]
    rw [if_pos ⟨by omega, by omega⟩, if_neg (by omega)]
    have he : c.toNat - 32 + 32 = c.toNat := by omega
    rw [he, Char.ofNat_toNat]
  · rfl

/-- Modelled from the spec: the matching semantics of the external
Supabase/PostgREST ilike filter, which the repository only invokes
(`.ilike("STATE_NAME", state)`); the client and database are external
collaborators, so their SQL LIKE pattern matching (wildcard % for any
sequence, _ for any single character) is modelled here. Fuel bounds the
recursion; every step consumes at least one pattern or value character, so
with fuel above the combined length the fuel never runs out. -/
def likeMatchFuel : Nat → List Char → List Char → Bool
  | 0, _, _ => false
  | fuel + 1, ps, vs =>
    match ps, vs with
    | [], rest => rest.isEmpty
    | '%' :: ps2, rest =>
        likeMatchFuel fuel ps2 rest ||
          (match rest with
           | [] => false
           | _ :: vs2 => likeMatchFuel fuel ('%' :: ps2) vs2)
    | '_' :: _, [] => false
    | '_' :: ps2, _ :: vs2 => likeMatchFuel fuel ps2 vs2
    | _ :: _, [] => false
    | p :: ps2, v :: vs2 => p == v && likeMatchFuel fuel ps2 vs2

/-- Modelled from the spec: case-insensitive pattern match, as performed by
the external store for the ilike filter — both sides are case-folded and the
LIKE pattern match is applied. -/
def ilikeMatch (pattern value : String) : Bool :=
  likeMatchFuel (pattern.length + value.length + 1)
    (pattern.toList.map asciiLowerChar) (value.toList.map asciiLowerChar)

/-- Uppercase every ASCII letter of a string. -/
def asciiUpperString (s : String) : String :=
  String.mk (s.toList.map asciiUpperChar)

theorem asciiLowerChar_comp_upper :
    asciiLowerChar ∘ asciiUpperChar = asciiLowerChar :=
  funext asciiLower_upperChar

theorem asciiUpperString_toList (v : String) :
    (asciiUpperString v).toList = v.toList.map asciiUpperChar := rfl

theorem asciiUpperString_length (v : String) :
    (asciiUpperString v).length = v.length := by
  show (v.toList.map asciiUpperChar).length = v.length
  rw [List.length_map]
  rfl

theorem ilikeMatch_value_case_insensitive (p v : String) :
    ilikeMatch p (asciiUpperString v) = ilikeMatch p v := by
  unfold ilikeMatch
  rw [asciiUpperString_toList, List.map_map, asciiLowerChar_comp_upper,
    asciiUpperString_length]

theorem ilikeMatch_pattern_case_insensitive (p v : String) :
    ilikeMatch (asciiUpperString p) v = ilikeMatch p v := by
  unfold ilikeMatch
  rw [asciiUpperString_toList, List.map_map, asciiLowerChar_comp_upper,
    asciiUpperString_length]


/-- Matching of one table row against the state input, as the external store
evaluates the ilike filter on the STATE_NAME column: a null column never
matches. -/
def rowMatchesState (state : String) (row : BoundingBoxRow) : Bool :=
  match row.STATE_NAME with
  | some name => ilikeMatch state name
  | none => false

/-- Semantics of the built query (select all, ilike on STATE_NAME, limit 1)
against a snapshot of the table: the matching rows in table order, capped to
one row. -/
def boundingBoxesQuery (table : List BoundingBoxRow) (state : String) :
    List BoundingBoxRow :=
  (table.filter (rowMatchesState state)).take 1

/-- Bounding-box row taken from the end-to-end example of the spec. -/
def rowCalifornia : BoundingBoxRow :=
  { STATE_NAME := some "California", COUNTY_NAME := none,
    y_min := some (65 / 2), y_max := some 42,
    x_min := some (-622 / 5), x_max := some (-1141 / 10) }

/-- Second concrete row, for multi-row query fixtures. -/
def rowTexas : BoundingBoxRow :=
  { STATE_NAME := some "Texas", COUNTY_NAME := none,
    y_min := some 0, y_max := some 1, x_min := some 0, x_max := some 1 }

/-- Store that answers every attempt with the example row. -/
def storeGood : Nat → QueryResult := fun _ => QueryResult.rows [rowCalifornia]

/-- Store that errors on the first two attempts and succeeds on the third. -/
def storeFailsTwice : Nat → QueryResult := fun n =>
  if n ≤ 2 then QueryResult.err "fetch failed" else QueryResult.rows [rowCalifornia]

/-- Store whose query always returns zero rows. -/
def alwaysEmptyStore : Nat → QueryResult := fun _ => QueryResult.rows []

/-- Provider that reports a non-OK status on every call. -/
def offlineProvider : Nat → NearbySearchRequest → PlacesResponse := fun _ _ =>
  { status := PlacesServiceStatus.other "UNKNOWN_ERROR", results := none }

/-- Provider behaviour of the aggregation example of the spec: per-quadrant
outcomes OK [a, b], failure, OK [c], OK []. -/
def exampleProvider : Nat → NearbySearchRequest → PlacesResponse := fun i _ =>
  if i = 0 then
    { status := PlacesServiceStatus.OK, results := some [{ place_id := "a" }, { place_id := "b" }] }
  else if i = 1 then
    { status := PlacesServiceStatus.other "UNKNOWN_ERROR", results := none }
  else if i = 2 then
    { status := PlacesServiceStatus.OK, results := some [{ place_id := "c" }] }
  else
    { status := PlacesServiceStatus.OK, results := some [] }

/-- C1: for a BoundingBox with all four bounds present, subdivision emits
exactly the four quadrants south-west, south-east, north-west, north-east in
that order, built from the midpoints y_mid = (y_min + y_max) / 2 and
x_mid = (x_min + x_max) / 2; the union of the four extents equals the parent
extent, and any two distinct quadrants meet at most in the midlines (a
zero-area set). -/
theorem divideBox_quadrants_cover (s county : Option String) (y0 y1 x0 x1 : ℚ) :
    divideBox ⟨s, county, some y0, some y1, some x0, some x1⟩ =
      [ ⟨county, y0, (y0 + y1) / 2, x0, (x0 + x1) / 2⟩,
        ⟨county, y0, (y0 + y1) / 2, (x0 + x1) / 2, x1⟩,
        ⟨county, (y0 + y1) / 2, y1, x0, (x0 + x1) / 2⟩,
        ⟨county, (y0 + y1) / 2, y1, (x0 + x1) / 2, x1⟩ ]
    ∧ Quadrant.extent ⟨county, y0, (y0 + y1) / 2, x0, (x0 + x1) / 2⟩
        ∪ Quadrant.extent ⟨county, y0, (y0 + y1) / 2, (x0 + x1) / 2, x1⟩
        ∪ Quadrant.extent ⟨county, (y0 + y1) / 2, y1, x0, (x0 + x1) / 2⟩
        ∪ Quadrant.extent ⟨county, (y0 + y1) / 2, y1, (x0 + x1) / 2, x1⟩
      = rectSet y0 y1 x0 x1
    ∧ Quadrant.extent ⟨county, y0, (y0 + y1) / 2, x0, (x0 + x1) / 2⟩
        ∩ Quadrant.extent ⟨county, y0, (y0 + y1) / 2, (x0 + x1) / 2, x1⟩
        ⊆ midlines ((y0 + y1) / 2) ((x0 + x1) / 2)
    ∧ Quadrant.extent ⟨county, y0, (y0 + y1) / 2, x0, (x0 + x1) / 2⟩
        ∩ Quadrant.extent ⟨county, (y0 + y1) / 2, y1, x0, (x0 + x1) / 2⟩
        ⊆ midlines ((y0 + y1) / 2) ((x0 + x1) / 2)
    ∧ Quadrant.extent ⟨county, y0, (y0 + y1) / 2, x0, (x0 + x1) / 2⟩
        ∩ Quadrant.extent ⟨county, (y0 + y1) / 2, y1, (x0 + x1) / 2, x1⟩
        ⊆ midlines ((y0 + y1) / 2) ((x0 + x1) / 2)
    ∧ Quadrant.extent ⟨county, y0, (y0 + y1) / 2, (x0 + x1) / 2, x1⟩
        ∩ Quadrant.extent ⟨county, (y0 + y1) / 2, y1, x0, (x0 + x1) / 2⟩
        ⊆ midlines ((y0 + y1) / 2) ((x0 + x1) / 2)
    ∧ Quadrant.extent ⟨county, y0, (y0 + y1) / 2, (x0 + x1) / 2, x1⟩
        ∩ Quadrant.extent ⟨county, (y0 + y1) / 2, y1, (x0 + x1) / 2, x1⟩
        ⊆ midlines ((y0 + y1) / 2) ((x0 + x1) / 2)
    ∧ Quadrant.extent ⟨county, (y0 + y1) / 2, y1, x0, (x0 + x1) / 2⟩
        ∩ Quadrant.extent ⟨county, (y0 + y1) / 2, y1, (x0 + x1) / 2, x1⟩
        ⊆ midlines ((y0 + y1) / 2) ((x0 + x1) / 2) := by
  refine ⟨rfl, ?_, ?_, ?_, ?_, ?_, ?_, ?_⟩
  · ext ⟨y, x⟩
    simp only [Quadrant.extent, rectSet, midlines, Set.mem_union, Set.mem_setOf_eq]
    constructor
    · rintro (((⟨h1, h2, h3, h4⟩ | ⟨h1, h2, h3, h4⟩) | ⟨h1, h2, h3, h4⟩) | ⟨h1, h2, h3, h4⟩) <;>
        exact ⟨by linarith, by linarith, by linarith, by linarith⟩
    · rintro ⟨h1, h2, h3, h4⟩
      rcases le_total y ((y0 + y1) / 2) with hy | hy <;>
        rcases le_total x ((x0 + x1) / 2) with hx | hx
      · exact Or.inl (Or.inl (Or.inl ⟨h1, hy, h3, hx⟩))
      · exact Or.inl (Or.inl (Or.inr ⟨h1, hy, hx, h4⟩))
      · exact Or.inl (Or.inr ⟨hy, h2, h3, hx⟩)
      · exact Or.inr ⟨hy, h2, hx, h4⟩
  all_goals
    rintro ⟨y, x⟩ ⟨⟨h1, h2, h3, h4⟩, ⟨h5, h6, h7, h8⟩⟩
  · exact Or.inr (le_antisymm h4 h7)
  · exact Or.inl (le_antisymm h2 h5)
  · exact Or.inl (le_antisymm h2 h5)
  · exact Or.inl (le_antisymm h2 h5)
  · exact Or.inl (le_antisymm h2 h5)
  · exact Or.inr (le_antisymm h4 h7)

/-- Witness for C1: the subdivision evaluated on a concrete box. -/
theorem divideBox_quadrants_cover_witness :
    divideBox ⟨none, none, some 0, some 2, some 0, some 4⟩ =
      [ ⟨none, 0, 1, 0, 2⟩, ⟨none, 0, 1, 2, 4⟩, ⟨none, 1, 2, 0, 2⟩, ⟨none, 1, 2, 2, 4⟩ ] :=
  ((divideBox_quadrants_cover none none 0 2 0 4).1).trans (by norm_num)

/-- C5: a BoundingBox with any bound null contributes zero quadrants — the
box is skipped, not an error. -/
theorem divideBox_null_bound_empty (box : BoundingBoxRow)
    (h : box.y_min = none ∨ box.y_max = none ∨ box.x_min = none ∨ box.x_max = none) :
    divideBox box = [] := by
  obtain ⟨s, c, ym, yM, xm, xM⟩ := box
  cases ym <;> cases yM <;> cases xm <;> cases xM <;> first | rfl | simp at h

/-- Witness for C5: a concrete box with a null y_min bound. -/
theorem divideBox_null_bound_empty_witness :
    ((none : Option ℚ) = none ∨ (some (42 : ℚ)) = none ∨ (some (3 : ℚ)) = none ∨
      (some (4 : ℚ)) = none)
    ∧ divideBox ⟨some "California", none, none, some 42, some 3, some 4⟩ = [] :=
  ⟨Or.inl rfl,
   divideBox_null_bound_empty ⟨some "California", none, none, some 42, some 3, some 4⟩
     (Or.inl rfl)⟩

/-- C8: subdivision is deterministic — it is a pure function of the row
list, so two runs on equal inputs give identical quadrant sequences. -/
theorem subdivision_deterministic (b1 b2 : List BoundingBoxRow) (h : b1 = b2) :
    dividedBoundingBoxes b1 = dividedBoundingBoxes b2
    ∧ ∀ box : BoundingBoxRow, divideBox box = divideBox box :=
  ⟨congrArg dividedBoundingBoxes h, fun _ => rfl⟩

/-- Witness for C8: two runs on the example row. -/
theorem subdivision_deterministic_witness :
    dividedBoundingBoxes [rowCalifornia] = dividedBoundingBoxes [rowCalifornia]
    ∧ divideBox rowCalifornia = divideBox rowCalifornia :=
  ⟨(subdivision_deterministic [rowCalifornia] [rowCalifornia] rfl).1,
   (subdivision_deterministic [rowCalifornia] [rowCalifornia] rfl).2 rowCalifornia⟩

/-- C9: subdivision never validates the ordering invariant — a box whose four
bounds are all present yields 4 quadrants even when inverted (y_max below
y_min or x_max below x_min), and a null bound is the only condition under
which a box is discarded. -/
theorem divideBox_ignores_bound_order (s county : Option String) (a b c d : ℚ)
    (_inverted : b < a ∨ d < c) :
    (divideBox ⟨s, county, some a, some b, some c, some d⟩).length = 4
    ∧ ∀ box : BoundingBoxRow, (divideBox box).isEmpty = !allBoundsPresent box := by
  refine ⟨rfl, ?_⟩
  intro box
  obtain ⟨s2, c2, ym, yM, xm, xM⟩ := box
  cases ym <;> cases yM <;> cases xm <;> cases xM <;> rfl

/-- Witness for C9: an inverted box (y_min = 1 above y_max = 0) still yields
4 quadrants. -/
theorem divideBox_ignores_bound_order_witness :
    ((0 : ℚ) < 1 ∨ (1 : ℚ) < 0)
    ∧ (divideBox ⟨none, none, some 1, some 0, some 0, some 1⟩).length = 4 :=
  ⟨Or.inl (by norm_num),
   (divideBox_ignores_bound_order none none 1 0 0 1 (Or.inl (by norm_num))).1⟩

/-- C2: each quadrant contributes its provider-returned place ids in provider
order on OK status, and the empty list on a non-OK status or missing results;
the output is the concatenation of the per-quadrant lists in quadrant
emission order with no deduplication, and a per-quadrant failure never fails
the overall call — whenever the lookup succeeded, the tool returns the
flattened per-quadrant lists. -/
theorem search_aggregation_spec (provider : Nat → NearbySearchRequest → PlacesResponse)
    (qs : List Quadrant) :
    (searchResults provider qs).length = qs.length
    ∧ (∀ i, (searchResults provider qs)[i]? =
        (qs[i]?).map fun box => nearbySearchPlaceIds (provider i (mkSearchRequest box)))
    ∧ (∀ results, nearbySearchPlaceIds ⟨PlacesServiceStatus.OK, some results⟩ =
        results.map PlaceResult.place_id)
    ∧ (∀ st results, st ≠ PlacesServiceStatus.OK → nearbySearchPlaceIds ⟨st, results⟩ = [])
    ∧ nearbySearchPlaceIds ⟨PlacesServiceStatus.OK, none⟩ = []
    ∧ (∀ store state d a, runLookupLoop store state = (Except.ok (some d), a) →
        boundingBoxesTool store provider state =
          Except.ok ((searchResults provider (dividedBoundingBoxes d)).flatten)) := by
  refine ⟨searchResultsFrom_length provider 0 qs, ?_, fun _ => rfl, ?_, rfl, ?_⟩
  · intro i
    simpa using searchResultsFrom_getElem provider 0 qs i
  · intro st results hst
    cases st
    · exact absurd rfl hst
    · cases results <;> rfl
  · intro store state d a h
    exact boundingBoxesTool_of_lookup_ok store provider state d a
      (boundingBoxesLookup_of_loop_ok store state d a h)

/-- Witness for C2: the aggregation example of the spec — per-quadrant
outcomes [a, b], failure, [c], [] yield the output [a, b, c] with no error. -/
theorem search_aggregation_spec_witness :
    PlacesServiceStatus.other "UNKNOWN_ERROR" ≠ PlacesServiceStatus.OK
    ∧ nearbySearchPlaceIds ⟨PlacesServiceStatus.other "UNKNOWN_ERROR", none⟩ = []
    ∧ runLookupLoop storeGood "california" = (Except.ok (some [rowCalifornia]), 1)
    ∧ boundingBoxesTool storeGood exampleProvider "california" = Except.ok ["a", "b", "c"] := by
  refine ⟨by decide, (search_aggregation_spec exampleProvider []).2.2.2.1 _ none (by decide),
    rfl, ?_⟩
  have h := (search_aggregation_spec exampleProvider []).2.2.2.2.2 storeGood "california"
    [rowCalifornia] 1 rfl
  rw [h]
  rfl

/-- C3: for every store behaviour the lookup performs at most 3 attempts; a
store failing on the first two attempts and succeeding on the third makes the
lookup return the successful row after exactly 3 attempts, and a store whose
every attempt errors or returns zero rows makes the lookup fail after exactly
3 attempts. -/
theorem lookup_retry_bounded (store : Nat → QueryResult) (state : String) :
    (boundingBoxesLookup store state).2 ≤ 3
    ∧ (∀ d, attemptFailed (store 1) = true → attemptFailed (store 2) = true →
        store 3 = QueryResult.rows d → d.isEmpty = false →
        boundingBoxesLookup store state = (Except.ok d, 3))
    ∧ ((∀ n, 1 ≤ n → n ≤ 3 → attemptFailed (store n) = true) →
        ∃ e, boundingBoxesLookup store state = (Except.error e, 3)) := by
  refine ⟨?_, ?_, ?_⟩
  · rcases runLookupLoop_outcomes store state with ⟨d, a, hne, h1a, ha3, h⟩ | ⟨e, h⟩
    · rw [boundingBoxesLookup_of_loop_ok store state d a h]
      exact ha3
    · rw [boundingBoxesLookup_of_loop_error store state e 3 h]
  · intro d h1 h2 h3 hne
    exact boundingBoxesLookup_of_loop_ok store state d 3
      (runLookupLoop_ok3 store state d h1 h2 h3 hne)
  · intro hall
    obtain ⟨e, h⟩ := runLookupLoop_error_of_all_failed store state
      (hall 1 (by omega) (by omega)) (hall 2 (by omega) (by omega))
      (hall 3 (by omega) (by omega))
    exact ⟨e, boundingBoxesLookup_of_loop_error store state e 3 h⟩

/-- Witness for C3: a store erring twice then succeeding returns the row at
attempt 3; a store always returning zero rows fails at attempt 3. -/
theorem lookup_retry_bounded_witness :
    attemptFailed (storeFailsTwice 1) = true
    ∧ attemptFailed (storeFailsTwice 2) = true
    ∧ storeFailsTwice 3 = QueryResult.rows [rowCalifornia]
    ∧ ([rowCalifornia] : List BoundingBoxRow).isEmpty = false
    ∧ boundingBoxesLookup storeFailsTwice "california" = (Except.ok [rowCalifornia], 3)
    ∧ (∀ n, 1 ≤ n → n ≤ 3 → attemptFailed (alwaysEmptyStore n) = true)
    ∧ ∃ e, boundingBoxesLookup alwaysEmptyStore "california" = (Except.error e, 3) :=
  ⟨rfl, rfl, rfl, rfl,
   (lookup_retry_bounded storeFailsTwice "california").2.1 [rowCalifornia] rfl rfl rfl rfl,
   fun _ _ _ => rfl,
   (lookup_retry_bounded alwaysEmptyStore "california").2.2 (fun _ _ _ => rfl)⟩

/-- C4: the tool propagates an error iff the lookup exhausts its retry budget
(all 3 attempts fail); whenever the lookup succeeds, every downstream stage
degrades to an empty contribution and the tool returns a possibly-empty list
rather than an error, for every provider behaviour. -/
theorem tool_error_iff_lookup_exhausted (store : Nat → QueryResult)
    (provider : Nat → NearbySearchRequest → PlacesResponse) (state : String) :
    ((∃ e, boundingBoxesTool store provider state = Except.error e) ↔
      (attemptFailed (store 1) = true ∧ attemptFailed (store 2) = true ∧
        attemptFailed (store 3) = true))
    ∧ (¬(attemptFailed (store 1) = true ∧ attemptFailed (store 2) = true ∧
          attemptFailed (store 3) = true) →
        ∃ out, boundingBoxesTool store provider state = Except.ok out) := by
  have hok : ∀ d a, runLookupLoop store state = (Except.ok (some d), a) →
      boundingBoxesTool store provider state =
        Except.ok ((searchResults provider (dividedBoundingBoxes d)).flatten) :=
    fun d a h => boundingBoxesTool_of_lookup_ok store provider state d a
      (boundingBoxesLookup_of_loop_ok store state d a h)
  constructor
  · constructor
    · rintro ⟨e, he⟩
      by_contra hnot
      obtain ⟨d, a, hne, h⟩ := runLookupLoop_ok_of_not_all_failed store state hnot
      rw [hok d a h] at he
      exact Except.noConfusion he
    · rintro ⟨h1, h2, h3⟩
      obtain ⟨e, h⟩ := runLookupLoop_error_of_all_failed store state h1 h2 h3
      exact ⟨e, boundingBoxesTool_of_lookup_error store provider state e 3
        (boundingBoxesLookup_of_loop_error store state e 3 h)⟩
  · intro hnot
    obtain ⟨d, a, hne, h⟩ := runLookupLoop_ok_of_not_all_failed store state hnot
    exact ⟨_, hok d a h⟩

/-- Witness for C4: a store succeeding on the first attempt makes the tool
return an ok value even when every quadrant search fails, while a store that
always returns zero rows makes the tool fail. -/
theorem tool_error_iff_lookup_exhausted_witness :
    (¬(attemptFailed (storeGood 1) = true ∧ attemptFailed (storeGood 2) = true ∧
        attemptFailed (storeGood 3) = true))
    ∧ (∃ out, boundingBoxesTool storeGood offlineProvider "california" = Except.ok out)
    ∧ (∃ e, boundingBoxesTool alwaysEmptyStore offlineProvider "california" = Except.error e) :=
  ⟨by decide,
   (tool_error_iff_lookup_exhausted storeGood offlineProvider "california").2 (by decide),
   (tool_error_iff_lookup_exhausted alwaysEmptyStore offlineProvider "california").1.mpr
     ⟨rfl, rfl, rfl⟩⟩

/-- C6: the lookup query matches the state-name column case-insensitively
with pattern semantics (not exact string equality) and is capped to one
result, so the caller receives the first matching record in table order when
multiple rows match. -/
theorem query_ilike_capped (table : List BoundingBoxRow) (state : String) :
    (boundingBoxesQuery table state).length ≤ 1
    ∧ (∀ r rest, table.filter (rowMatchesState state) = r :: rest →
        boundingBoxesQuery table state = [r])
    ∧ (∀ p v, ilikeMatch p (asciiUpperString v) = ilikeMatch p v)
    ∧ (∀ p v, ilikeMatch (asciiUpperString p) v = ilikeMatch p v)
    ∧ ilikeMatch "CALIFORNIA" "california" = true
    ∧ "CALIFORNIA" ≠ "california"
    ∧ ilikeMatch "%forn%" "California" = true := by
  refine ⟨?_, ?_, ilikeMatch_value_case_insensitive, ilikeMatch_pattern_case_insensitive,
    by decide, by decide, by decide⟩
  · unfold boundingBoxesQuery
    rw [List.length_take]
    exact min_le_left _ _
  · intro r rest h
    unfold boundingBoxesQuery
    rw [h]
    rfl

/-- Witness for C6: a two-row table queried with an uppercased state name
returns exactly the first (case-insensitively) matching row. -/
theorem query_ilike_capped_witness :
    List.filter (rowMatchesState "CALIFORNIA") [rowTexas, rowCalifornia] = rowCalifornia :: []
    ∧ boundingBoxesQuery [rowTexas, rowCalifornia] "CALIFORNIA" = [rowCalifornia] :=
  ⟨rfl,
   (query_ilike_capped [rowTexas, rowCalifornia] "CALIFORNIA").2.1 rowCalifornia [] rfl⟩

/-- C7 counterexample: for state california with a store returning zero rows
on every attempt, the surfaced error message is the no-boxes message, which
names the state but contains neither the character 3 nor any digit at all —
so it does not name the attempt count. -/
theorem lookup_error_message_counterexample :
    boundingBoxesTool alwaysEmptyStore offlineProvider "california" =
      Except.error "No bounding boxes found for state: california"
    ∧ ("No bounding boxes found for state: california").toList.contains '3' = false
    ∧ ("No bounding boxes found for state: california").toList.any Char.isDigit = false :=
  ⟨rfl, by decide, by decide⟩

/-- C7 (amended): when the lookup exhausts its 3 attempts with the final
attempt returning zero rows, the surfaced error names the state (message
No bounding boxes found for state followed by the state) but not the attempt
count; the attempt count appears only in a log line. -/
theorem lookup_exhausted_error_names_state (store : Nat → QueryResult)
    (provider : Nat → NearbySearchRequest → PlacesResponse) (state : String)
    (h1 : attemptFailed (store 1) = true) (h2 : attemptFailed (store 2) = true)
    (h3 : store 3 = QueryResult.rows []) :
    boundingBoxesTool store provider state =
      Except.error ("No bounding boxes found for state: " ++ state) :=
  boundingBoxesTool_of_lookup_error store provider state _ 3
    (boundingBoxesLookup_of_loop_error store state _ 3
      (runLookupLoop_empty3 store state h1 h2 h3))

/-- Witness for the amended C7: the always-empty store surfaces the
state-naming message. -/
theorem lookup_exhausted_error_names_state_witness :
    attemptFailed (alwaysEmptyStore 1) = true
    ∧ attemptFailed (alwaysEmptyStore 2) = true
    ∧ alwaysEmptyStore 3 = QueryResult.rows []
    ∧ boundingBoxesTool alwaysEmptyStore offlineProvider "wyoming" =
        Except.error "No bounding boxes found for state: wyoming" :=
  ⟨rfl, rfl, rfl,
   lookup_exhausted_error_names_state alwaysEmptyStore offlineProvider "wyoming" rfl rfl rfl⟩

/-- C10: the post-loop defensive null check is unreachable — for every store
behaviour, when the retry loop terminates without throwing, the boundingBoxes
variable holds a non-null, non-empty list, so the null-data error is never
raised there. -/
theorem lookup_null_check_unreachable (store : Nat → QueryResult) (state : String) :
    lookupReturnedNull (runLookupLoop store state).1 = false
    ∧ (∀ ob a, runLookupLoop store state = (Except.ok ob, a) →
        ∃ d, ob = some d ∧ d.isEmpty = false) := by
  rcases runLookupLoop_outcomes store state with ⟨d, a, hne, _, _, h⟩ | ⟨e, h⟩
  · refine ⟨by rw [h]; rfl, ?_⟩
    intro ob a2 h2
    rw [h] at h2
    injection h2 with h2a h2b
    injection h2a with h2c
    exact ⟨d, h2c.symm, hne⟩
  · refine ⟨by rw [h]; rfl, ?_⟩
    intro ob a2 h2
    rw [h] at h2
    injection h2 with h2a h2b
    exact Except.noConfusion h2a

/-- Witness for C10: the loop outcome for a first-attempt success is the
non-null, non-empty row list. -/
theorem lookup_null_check_unreachable_witness :
    lookupReturnedNull (runLookupLoop storeGood "california").1 = false
    ∧ ∃ d, (some [rowCalifornia] : Option (List BoundingBoxRow)) = some d
        ∧ d.isEmpty = false :=
  ⟨(lookup_null_check_unreachable storeGood "california").1,
   (lookup_null_check_unreachable storeGood "california").2 (some [rowCalifornia]) 1 rfl⟩
